import Mathlib

/-!
Verification of the invoice computation engine of `app.py`.

The tax arithmetic of `handle_invoice` (src/app.py, lines 649-707), the
credit-note derivation of `generate_credit_note` (lines 824-865), the
numbering of both, and the number-to-words formatter `convert_to_words`
(lines 231-255) are embedded below.  Monetary amounts are modelled as
exact rationals; Python's `round(x, 2)` is modelled as rounding
`x * 100` to the nearest integer and dividing by 100.
-/

namespace Invoice

/-- Python's `round(x, 2)`: round to 2 decimal places. -/
def round2 (q : ℚ) : ℚ := (round (q * 100) : ℚ) / 100

/-- A rational that is a whole number of cents (an exact 2-decimal value). -/
def Cent (q : ℚ) : Prop := ∃ k : ℤ, q = (k : ℚ) / 100

/-- One raw line of an invoice request: the inclusive amount
(`amounts_inclusive[i]`) and the supplied tax-rate percentage
(`taxrates[i]`, defaulted to 0 when the array is short). -/
structure LineIn where
  amount : ℚ
  taxrate : ℚ

/-- Source: `tax_rate = 0 if is_non_gst else float(taxrates[i])` (app.py line 659). -/
def effRate (is_non_gst : Bool) (l : LineIn) : ℚ :=
  if is_non_gst then 0 else l.taxrate

/-- Source: `taxable = round(inclusive / (1 + tax_rate/100), 2)` (app.py line 660). -/
def lineTaxable (is_non_gst : Bool) (l : LineIn) : ℚ :=
  round2 (l.amount / (1 + effRate is_non_gst l / 100))

/-- Source: `tax_amt = round(inclusive - taxable, 2)` (app.py line 661). -/
def lineTax (is_non_gst : Bool) (l : LineIn) : ℚ :=
  round2 (l.amount - lineTaxable is_non_gst l)

/-- Source: `line_total.append(inclusive)` (app.py line 665). -/
def lineTotal (l : LineIn) : ℚ := l.amount

/-- Source: `cgst_amt = round(tax_amt/2, 2)` (app.py line 669). -/
def cgstLine (tax : ℚ) : ℚ := round2 (tax / 2)

/-- Source: `sgst_amt = tax_amt - cgst_amt` (app.py line 670). -/
def sgstLine (tax : ℚ) : ℚ := tax - cgstLine tax

/-- Source: `data.get('client_gstin','').startswith(my_state_code)` (app.py line 668). -/
def sameState (client_gstin my_state_code : String) : Bool :=
  my_state_code.isPrefixOf client_gstin

/-- The three running totals accumulated by the loop of `handle_invoice`. -/
structure Totals where
  igst : ℚ
  cgst : ℚ
  sgst : ℚ
deriving Repr

/-- One iteration of the accumulation loop (app.py lines 667-674):
skip when exempt; when same-state add the CGST/SGST halves; otherwise
add the whole line tax to IGST. -/
def accumLine (is_non_gst same_st : Bool) (t : Totals) (l : LineIn) : Totals :=
  if is_non_gst then t
  else if same_st then
    let tax := lineTax is_non_gst l
    { t with cgst := t.cgst + cgstLine tax, sgst := t.sgst + sgstLine tax }
  else
    { t with igst := t.igst + lineTax is_non_gst l }

/-- Source: `total_igst, total_cgst, total_sgst` after the whole loop, starting
from `0.0, 0.0, 0.0` (app.py line 655). -/
def rawTotals (is_non_gst same_st : Bool) (lines : List LineIn) : Totals :=
  lines.foldl (accumLine is_non_gst same_st) ⟨0, 0, 0⟩

/-- Source: `"sub_total": round(sum(line_taxable), 2)` (app.py line 700). -/
def subTotal (is_non_gst : Bool) (lines : List LineIn) : ℚ :=
  round2 ((lines.map (lineTaxable is_non_gst)).sum)

/-- Source: `"igst": round(total_igst, 2)` (app.py line 701). -/
def igstStored (is_non_gst same_st : Bool) (lines : List LineIn) : ℚ :=
  round2 (rawTotals is_non_gst same_st lines).igst

/-- Source: `"cgst": round(total_cgst, 2)` (app.py line 702). -/
def cgstStored (is_non_gst same_st : Bool) (lines : List LineIn) : ℚ :=
  round2 (rawTotals is_non_gst same_st lines).cgst

/-- Source: `"sgst": round(total_sgst, 2)` (app.py line 703). -/
def sgstStored (is_non_gst same_st : Bool) (lines : List LineIn) : ℚ :=
  round2 (rawTotals is_non_gst same_st lines).sgst

/-- Source: `"grand_total": round(sum(line_taxable) + total_igst + total_cgst +
total_sgst, 2)` (app.py line 704) — note the unrounded sum and totals. -/
def grandTotal (is_non_gst same_st : Bool) (lines : List LineIn) : ℚ :=
  round2 ((lines.map (lineTaxable is_non_gst)).sum
    + (rawTotals is_non_gst same_st lines).igst
    + (rawTotals is_non_gst same_st lines).cgst
    + (rawTotals is_non_gst same_st lines).sgst)

/-! ### Basic facts about `round2` -/

lemma abs_round2_sub_le (q : ℚ) : |round2 q - q| ≤ 1 / 200 := by
  have h : |(round (q * 100) : ℚ) - q * 100| ≤ 1 / 2 := by
    rw [abs_sub_comm]; exact abs_sub_round (q * 100)
  have h2 : round2 q - q = ((round (q * 100) : ℚ) - q * 100) / 100 := by
    unfold round2; ring
  rw [h2, abs_div, abs_of_pos (show (0 : ℚ) < 100 by norm_num)]
  linarith

lemma cent_round2 (q : ℚ) : Cent (round2 q) := ⟨round (q * 100), rfl⟩

lemma cent_zero : Cent 0 := ⟨0, by norm_num⟩

lemma cent_add {a b : ℚ} (ha : Cent a) (hb : Cent b) : Cent (a + b) := by
  obtain ⟨j, rfl⟩ := ha; obtain ⟨k, rfl⟩ := hb
  exact ⟨j + k, by push_cast; ring⟩

lemma cent_sub {a b : ℚ} (ha : Cent a) (hb : Cent b) : Cent (a - b) := by
  obtain ⟨j, rfl⟩ := ha; obtain ⟨k, rfl⟩ := hb
  exact ⟨j - k, by push_cast; ring⟩

/-- Rounding to cents is the identity on exact cent amounts. -/
lemma round2_eq_self {q : ℚ} (h : Cent q) : round2 q = q := by
  obtain ⟨k, rfl⟩ := h
  unfold round2
  rw [show ((k : ℚ) / 100) * 100 = (k : ℚ) by field_simp]
  rw [round_intCast]

lemma cent_lineTaxable (b : Bool) (l : LineIn) : Cent (lineTaxable b l) :=
  cent_round2 _

lemma cent_lineTax (b : Bool) (l : LineIn) : Cent (lineTax b l) :=
  cent_round2 _

lemma cent_sum_taxable (b : Bool) (lines : List LineIn) :
    Cent ((lines.map (lineTaxable b)).sum) := by
  induction lines with
  | nil => exact cent_zero
  | cons l ls ih =>
      rw [List.map_cons, List.sum_cons]
      exact cent_add (cent_lineTaxable b l) ih

lemma accumLine_cent (b s : Bool) (t : Totals) (l : LineIn)
    (h1 : Cent t.igst) (h2 : Cent t.cgst) (h3 : Cent t.sgst) :
    Cent (accumLine b s t l).igst ∧ Cent (accumLine b s t l).cgst ∧
      Cent (accumLine b s t l).sgst := by
  cases b
  · cases s
    · exact ⟨cent_add h1 (cent_lineTax _ _), h2, h3⟩
    · exact ⟨h1, cent_add h2 (cent_round2 _),
        cent_add h3 (cent_sub (cent_lineTax _ _) (cent_round2 _))⟩
  · exact ⟨h1, h2, h3⟩

lemma foldl_accum_cent (b s : Bool) (lines : List LineIn) :
    ∀ t : Totals, Cent t.igst → Cent t.cgst → Cent t.sgst →
      Cent (lines.foldl (accumLine b s) t).igst ∧
      Cent (lines.foldl (accumLine b s) t).cgst ∧
      Cent (lines.foldl (accumLine b s) t).sgst := by
  induction lines with
  | nil => intro t h1 h2 h3; exact ⟨h1, h2, h3⟩
  | cons l ls ih =>
      intro t h1 h2 h3
      rw [List.foldl_cons]
      obtain ⟨g1, g2, g3⟩ := accumLine_cent b s t l h1 h2 h3
      exact ih _ g1 g2 g3

lemma rawTotals_cent (b s : Bool) (lines : List LineIn) :
    Cent (rawTotals b s lines).igst ∧
    Cent (rawTotals b s lines).cgst ∧
    Cent (rawTotals b s lines).sgst :=
  foldl_accum_cent b s lines ⟨0, 0, 0⟩ cent_zero cent_zero cent_zero

/-! ### Claims about the per-line tax arithmetic -/

/-- C1: for every line item with inclusive amount `a` and supplied rate
`r` (forced to 0 when the document is tax-exempt), the taxable value is
`round(a / (1 + r/100), 2)`, the line tax is `round(a - taxable, 2)`,
the stored line total is `a` unchanged, and `taxable + tax` equals `a`
to within 0.01. -/
theorem C1_line_breakdown (is_non_gst : Bool) (l : LineIn) :
    lineTaxable is_non_gst l
      = round2 (l.amount / (1 + effRate is_non_gst l / 100)) ∧
    effRate true l = 0 ∧
    lineTax is_non_gst l = round2 (l.amount - lineTaxable is_non_gst l) ∧
    lineTotal l = l.amount ∧
    |lineTaxable is_non_gst l + lineTax is_non_gst l - l.amount| ≤ 1 / 100 := by
  refine ⟨rfl, rfl, rfl, rfl, ?_⟩
  have h := abs_round2_sub_le (l.amount - lineTaxable is_non_gst l)
  have he : lineTaxable is_non_gst l + lineTax is_non_gst l - l.amount
      = round2 (l.amount - lineTaxable is_non_gst l)
        - (l.amount - lineTaxable is_non_gst l) := by
    unfold lineTax; ring
  rw [he]
  calc |round2 (l.amount - lineTaxable is_non_gst l)
          - (l.amount - lineTaxable is_non_gst l)| ≤ 1 / 200 := h
    _ ≤ 1 / 100 := by norm_num

/-- C2: on a non-exempt same-state line the accumulator adds
`cgst = round(tax/2, 2)` and `sgst = tax - cgst` (so `cgst + sgst`
reconstructs the line tax exactly and `|cgst - sgst| ≤ 0.01`, the odd
cent going to SGST) and leaves IGST untouched; on a non-exempt
cross-state line the whole line tax goes to IGST and CGST/SGST are
untouched. -/
theorem C2_gst_split (l : LineIn) (t : Totals) :
    (accumLine false true t l).cgst = t.cgst + cgstLine (lineTax false l) ∧
    (accumLine false true t l).sgst = t.sgst + sgstLine (lineTax false l) ∧
    (accumLine false true t l).igst = t.igst ∧
    cgstLine (lineTax false l) = round2 (lineTax false l / 2) ∧
    cgstLine (lineTax false l) + sgstLine (lineTax false l)
      = lineTax false l ∧
    |cgstLine (lineTax false l) - sgstLine (lineTax false l)| ≤ 1 / 100 ∧
    (accumLine false false t l).igst = t.igst + lineTax false l ∧
    (accumLine false false t l).cgst = t.cgst ∧
    (accumLine false false t l).sgst = t.sgst := by
  refine ⟨rfl, rfl, rfl, rfl, by unfold sgstLine; ring, ?_, rfl, rfl, rfl⟩
  set tax := lineTax false l with htax
  have h := abs_round2_sub_le (tax / 2)
  have he : cgstLine tax - sgstLine tax
      = 2 * (round2 (tax / 2) - tax / 2) := by
    unfold sgstLine cgstLine; ring
  rw [he, abs_mul, abs_of_pos (show (0 : ℚ) < 2 by norm_num)]
  linarith

/-- C3: the stored sub-total is `round(sum of line taxable values, 2)`,
and the grand total — computed by the code from the unrounded running
sums — still equals `round(sub_total + igst + cgst + sgst, 2)` over the
stored (rounded) aggregates, because every intermediate quantity is an
exact cent amount. -/
theorem C3_grand_total (b s : Bool) (lines : List LineIn) :
    subTotal b lines = round2 ((lines.map (lineTaxable b)).sum) ∧
    grandTotal b s lines
      = round2 (subTotal b lines + igstStored b s lines
          + cgstStored b s lines + sgstStored b s lines) := by
  have hS : Cent ((lines.map (lineTaxable b)).sum) := cent_sum_taxable b lines
  have hT := rawTotals_cent b s lines
  refine ⟨rfl, ?_⟩
  unfold grandTotal subTotal igstStored cgstStored sgstStored
  rw [round2_eq_self hS, round2_eq_self hT.1, round2_eq_self hT.2.1,
    round2_eq_self hT.2.2]

/-! ### The aggregate tax invariant (C4) -/

lemma foldl_exempt (s : Bool) (lines : List LineIn) (t : Totals) :
    lines.foldl (accumLine true s) t = t := by
  induction lines generalizing t with
  | nil => rfl
  | cons l ls ih => rw [List.foldl_cons]; exact ih t

lemma foldl_sameState_igst (lines : List LineIn) (t : Totals) :
    (lines.foldl (accumLine false true) t).igst = t.igst := by
  induction lines generalizing t with
  | nil => rfl
  | cons l ls ih => rw [List.foldl_cons]; exact ih _

lemma foldl_cross_cgst (lines : List LineIn) (t : Totals) :
    (lines.foldl (accumLine false false) t).cgst = t.cgst := by
  induction lines generalizing t with
  | nil => rfl
  | cons l ls ih => rw [List.foldl_cons]; exact ih _

lemma foldl_cross_sgst (lines : List LineIn) (t : Totals) :
    (lines.foldl (accumLine false false) t).sgst = t.sgst := by
  induction lines generalizing t with
  | nil => rfl
  | cons l ls ih => rw [List.foldl_cons]; exact ih _

lemma round2_zero : round2 0 = 0 := round2_eq_self cent_zero

lemma igstStored_exempt (s : Bool) (lines : List LineIn) :
    igstStored true s lines = 0 := by
  unfold igstStored rawTotals
  rw [foldl_exempt]
  exact round2_zero

lemma cgstStored_exempt (s : Bool) (lines : List LineIn) :
    cgstStored true s lines = 0 := by
  unfold cgstStored rawTotals
  rw [foldl_exempt]
  exact round2_zero

lemma sgstStored_exempt (s : Bool) (lines : List LineIn) :
    sgstStored true s lines = 0 := by
  unfold sgstStored rawTotals
  rw [foldl_exempt]
  exact round2_zero

lemma igstStored_sameState (lines : List LineIn) :
    igstStored false true lines = 0 := by
  unfold igstStored rawTotals
  rw [foldl_sameState_igst]
  exact round2_zero

lemma cgstStored_cross (lines : List LineIn) :
    cgstStored false false lines = 0 := by
  unfold cgstStored rawTotals
  rw [foldl_cross_cgst]
  exact round2_zero

lemma sgstStored_cross (lines : List LineIn) :
    sgstStored false false lines = 0 := by
  unfold sgstStored rawTotals
  rw [foldl_cross_sgst]
  exact round2_zero

/-- Alternative 1 of the invariant: positive IGST. -/
def TaxIGST (igst : ℚ) : Prop := 0 < igst

/-- Alternative 2: positive CGST and positive SGST. -/
def TaxSplitCS (cgst sgst : ℚ) : Prop := 0 < cgst ∧ 0 < sgst

/-- Alternative 3: all three aggregates zero and the document exempt. -/
def TaxAllZero (exempt : Bool) (igst cgst sgst : ℚ) : Prop :=
  igst = 0 ∧ cgst = 0 ∧ sgst = 0 ∧ exempt = true

/-- Exactly one of three alternatives holds. -/
def ExactlyOne3 (A B C : Prop) : Prop :=
  (A ∧ ¬B ∧ ¬C) ∨ (¬A ∧ B ∧ ¬C) ∨ (¬A ∧ ¬B ∧ C)

/-- At most one of three alternatives holds. -/
def AtMostOne3 (A B C : Prop) : Prop := ¬(A ∧ B) ∧ ¬(A ∧ C) ∧ ¬(B ∧ C)

/-- C4 fails as stated: a non-exempt cross-state document whose single
line carries tax rate 0 (inclusive amount 100) ends with
`igst = cgst = sgst = 0` yet is not exempt, so none of the three
alternatives holds. -/
theorem C4_counterexample :
    ¬ ExactlyOne3
        (TaxIGST (igstStored false false [⟨100, 0⟩]))
        (TaxSplitCS (cgstStored false false [⟨100, 0⟩])
          (sgstStored false false [⟨100, 0⟩]))
        (TaxAllZero false (igstStored false false [⟨100, 0⟩])
          (cgstStored false false [⟨100, 0⟩])
          (sgstStored false false [⟨100, 0⟩])) := by
  have harg : (LineIn.mk 100 0).amount
      / (1 + effRate false (LineIn.mk 100 0) / 100) = (100 : ℚ) := by
    show (100 : ℚ) / (1 + 0 / 100) = 100
    norm_num
  have htaxable : lineTaxable false ⟨100, 0⟩ = 100 := by
    unfold lineTaxable
    rw [harg]
    exact round2_eq_self ⟨10000, by norm_num⟩
  have htax : lineTax false ⟨100, 0⟩ = 0 := by
    unfold lineTax
    rw [htaxable]
    rw [show (LineIn.mk 100 0).amount - (100 : ℚ) = 0 by norm_num]
    exact round2_zero
  have h1 : igstStored false false [⟨100, 0⟩] = 0 := by
    unfold igstStored rawTotals
    rw [List.foldl_cons, List.foldl_nil]
    show round2 ((0 : ℚ) + lineTax false ⟨100, 0⟩) = 0
    rw [htax, add_zero, round2_zero]
  have h2 : cgstStored false false [⟨100, 0⟩] = 0 := cgstStored_cross _
  have h3 : sgstStored false false [⟨100, 0⟩] = 0 := sgstStored_cross _
  unfold ExactlyOne3 TaxIGST TaxSplitCS TaxAllZero
  rw [h1, h2, h3]
  simp

/-- C4 amended: at most one of the three alternatives ever holds, and
for every tax-exempt document all three aggregates are zero and the
third alternative holds exactly.  (The unqualified "exactly one" fails
on non-exempt documents whose lines all carry zero tax, as the
counterexample shows.) -/
theorem C4_amended (e s : Bool) (lines : List LineIn) :
    AtMostOne3
      (TaxIGST (igstStored e s lines))
      (TaxSplitCS (cgstStored e s lines) (sgstStored e s lines))
      (TaxAllZero e (igstStored e s lines) (cgstStored e s lines)
        (sgstStored e s lines)) ∧
    (igstStored true s lines = 0 ∧ cgstStored true s lines = 0 ∧
      sgstStored true s lines = 0) ∧
    ExactlyOne3
      (TaxIGST (igstStored true s lines))
      (TaxSplitCS (cgstStored true s lines) (sgstStored true s lines))
      (TaxAllZero true (igstStored true s lines) (cgstStored true s lines)
        (sgstStored true s lines)) := by
  have hz := And.intro (igstStored_exempt s lines)
    (And.intro (cgstStored_exempt s lines) (sgstStored_exempt s lines))
  refine ⟨⟨?_, ?_, ?_⟩, hz, ?_⟩
  · rintro ⟨hA, hB⟩
    cases e
    · cases s
      · exact absurd hB.1 (by rw [cgstStored_cross]; exact lt_irrefl 0)
      · exact absurd hA (by rw [igstStored_sameState]; exact lt_irrefl 0)
    · exact absurd hA (by rw [igstStored_exempt]; exact lt_irrefl 0)
  · rintro ⟨hA, hC⟩
    rw [TaxIGST, hC.1] at hA
    exact lt_irrefl 0 hA
  · rintro ⟨hB, hC⟩
    have := hB.1
    rw [hC.2.1] at this
    exact lt_irrefl 0 this
  · refine Or.inr (Or.inr ⟨?_, ?_, hz.1, hz.2.1, hz.2.2, rfl⟩)
    · rw [TaxIGST, hz.1]; exact lt_irrefl 0
    · rintro ⟨hc, -⟩
      rw [hz.2.1] at hc
      exact lt_irrefl 0 hc

/-! ### Documents, numbering and credit notes (C5, C6, C7, C9) -/

/-- A stored invoice/credit-note record: the `invoice_data` dictionary
built in `handle_invoice` (app.py lines 676-707) together with the
extra fields written by `generate_credit_note` (lines 847-850). -/
structure Document where
  bill_no : String
  invoice_date : String
  is_non_gst : Bool
  client_name : String
  client_gstin : String
  particulars : List String
  qtys : List ℚ
  rates : List ℚ
  taxrates : List ℚ
  hsns : List String
  amounts : List ℚ
  sub_total : ℚ
  igst : ℚ
  cgst : ℚ
  sgst : ℚ
  grand_total : ℚ
  line_tax_amounts : List ℚ
  line_total_amounts : List ℚ
  is_credit_note : Bool
  original_invoice_no : String
deriving Repr, DecidableEq

/-- Python `f"{n:04d}"` for a non-negative value: left-pad with zeros
to width 4. -/
def pad4 (n : ℕ) : String :=
  String.mk (List.replicate (4 - (toString n).length) '0') ++ toString n

/-- The fiscal-year tag hard-coded in both id formats
(app.py lines 640 and 844). -/
def fyTag : String := "2025-26"

/-- Source: `bill_no = f"{prefix}/2025-26/{counter:04d}"` (app.py line 640). -/
def autoBillNo (pfx : String) (counter : ℕ) : String :=
  pfx ++ "/" ++ fyTag ++ "/" ++ pad4 counter

/-- Source: `new_cn_bill_no = f"{prefix}-CN/2025-26/{cn_counter:04d}"`
(app.py line 844). -/
def cnBillNo (pfx : String) (counter : ℕ) : String :=
  pfx ++ "-CN/" ++ fyTag ++ "/" ++ pad4 counter

/-- The auto-numbering branch of `handle_invoice` (app.py lines
636-641): it produces the bill number and echoes today's date; the
date influences only the issue-date field, never the number. -/
def autoBranch (pfx : String) (counter : ℕ) (todayStr : String) :
    String × String :=
  (autoBillNo pfx counter, todayStr)

/-- C9: both generated id formats embed the constant fiscal-year
segment `2025-26`; the bill number produced by the auto branch is
identical for any two issue dates, i.e. the FY tag is not derived from
the date. -/
theorem C9_constant_fy (pfx : String) (counter : ℕ) (d1 d2 : String) :
    (autoBranch pfx counter d1).1 = (autoBranch pfx counter d2).1 ∧
    (autoBranch pfx counter d1).1 = pfx ++ "/" ++ "2025-26" ++ "/" ++ pad4 counter ∧
    cnBillNo pfx counter = pfx ++ "-CN/" ++ "2025-26" ++ "/" ++ pad4 counter := by
  exact ⟨rfl, rfl, rfl⟩

/-- Source: `generate_credit_note`'s copy-and-overwrite step (app.py lines
846-859): copy every field of the original, then replace the id, the
back-reference, the date and the credit-note flag, and negate the
monetary aggregates and the per-line numeric arrays by `-abs(x)`. -/
def creditNoteOf (orig : Document) (new_bill_no today : String) : Document :=
  { orig with
    bill_no := new_bill_no
    original_invoice_no := orig.bill_no
    invoice_date := today
    is_credit_note := true
    sub_total := -|orig.sub_total|
    igst := -|orig.igst|
    cgst := -|orig.cgst|
    sgst := -|orig.sgst|
    grand_total := -|orig.grand_total|
    qtys := orig.qtys.map (fun x => -|x|)
    amounts := orig.amounts.map (fun x => -|x|)
    line_tax_amounts := orig.line_tax_amounts.map (fun x => -|x|)
    line_total_amounts := orig.line_total_amounts.map (fun x => -|x|) }

/-- C5: the derived credit note is the original with exactly the
listed overwrites — credit-note-series id, back-reference to the
original id, derivation date, `is_credit_note = true`, `-abs`
negation of the five monetary aggregates and of the four per-line
numeric arrays — while every other field (rates and taxrates
included) is copied unchanged. -/
theorem C5_credit_note_fields (orig : Document) (pfx : String)
    (cnt : ℕ) (today : String) :
    (creditNoteOf orig (cnBillNo pfx cnt) today).bill_no = cnBillNo pfx cnt ∧
    (creditNoteOf orig (cnBillNo pfx cnt) today).original_invoice_no = orig.bill_no ∧
    (creditNoteOf orig (cnBillNo pfx cnt) today).invoice_date = today ∧
    (creditNoteOf orig (cnBillNo pfx cnt) today).is_credit_note = true ∧
    (creditNoteOf orig (cnBillNo pfx cnt) today).sub_total = -|orig.sub_total| ∧
    (creditNoteOf orig (cnBillNo pfx cnt) today).igst = -|orig.igst| ∧
    (creditNoteOf orig (cnBillNo pfx cnt) today).cgst = -|orig.cgst| ∧
    (creditNoteOf orig (cnBillNo pfx cnt) today).sgst = -|orig.sgst| ∧
    (creditNoteOf orig (cnBillNo pfx cnt) today).grand_total = -|orig.grand_total| ∧
    (creditNoteOf orig (cnBillNo pfx cnt) today).qtys = orig.qtys.map (fun x => -|x|) ∧
    (creditNoteOf orig (cnBillNo pfx cnt) today).amounts = orig.amounts.map (fun x => -|x|) ∧
    (creditNoteOf orig (cnBillNo pfx cnt) today).line_tax_amounts
      = orig.line_tax_amounts.map (fun x => -|x|) ∧
    (creditNoteOf orig (cnBillNo pfx cnt) today).line_total_amounts
      = orig.line_total_amounts.map (fun x => -|x|) ∧
    (creditNoteOf orig (cnBillNo pfx cnt) today).rates = orig.rates ∧
    (creditNoteOf orig (cnBillNo pfx cnt) today).taxrates = orig.taxrates ∧
    (creditNoteOf orig (cnBillNo pfx cnt) today).particulars = orig.particulars ∧
    (creditNoteOf orig (cnBillNo pfx cnt) today).hsns = orig.hsns ∧
    (creditNoteOf orig (cnBillNo pfx cnt) today).is_non_gst = orig.is_non_gst ∧
    (creditNoteOf orig (cnBillNo pfx cnt) today).client_name = orig.client_name ∧
    (creditNoteOf orig (cnBillNo pfx cnt) today).client_gstin = orig.client_gstin := by
  repeat' constructor

/-- The persisted state touched by `generate_credit_note`: the invoice
directory and the two numbering counters (`config/counters`). -/
structure Store where
  invoices : List Document
  counter : ℕ
  cn_counter : ℕ
deriving Repr, DecidableEq

/-- Source: `save_single_invoice` appends a new record to the directory. -/
def saveInvoice (invs : List Document) (d : Document) : List Document :=
  invs ++ [d]

/-- The existing-credit-note lookup of app.py lines 830-833: first by
back-reference, then by the legacy `CN-` prefixed id. -/
def findExistingCN (invs : List Document) (bill : String) : Option Document :=
  match invs.find? (fun inv => inv.original_invoice_no == bill) with
  | some cn => some cn
  | none => invs.find? (fun inv => inv.bill_no == "CN-" ++ bill)

/-- Source: `generate_credit_note` (app.py lines 824-865) as a state
transformer: return the existing credit note when one is found
(without touching the store), fail when the original is missing,
otherwise advance the credit-note counter, derive and persist. -/
def generate_credit_note (pfx today bill : String) (st : Store) :
    Except String Document × Store :=
  match findExistingCN st.invoices bill with
  | some cn => (Except.ok cn, st)
  | none =>
    match st.invoices.find? (fun inv => inv.bill_no == bill) with
    | none => (Except.error "Original Invoice not found", st)
    | some orig =>
      let newCnt := st.cn_counter + 1
      let cn := creditNoteOf orig (cnBillNo pfx newCnt) today
      (Except.ok cn,
        { st with cn_counter := newCnt
                  invoices := saveInvoice st.invoices cn })

/-- C6: when the directory already holds a document whose
back-reference equals the requested id, derivation returns that
document and leaves the store — invoices and both counters —
completely unchanged. -/
theorem C6_idempotent (pfx today bill : String) (st : Store) (cn : Document)
    (h : st.invoices.find? (fun inv => inv.original_invoice_no == bill) = some cn) :
    generate_credit_note pfx today bill st = (Except.ok cn, st) := by
  unfold generate_credit_note findExistingCN
  rw [h]

/-- A concrete document used to instantiate the theorems with
hypotheses. -/
def sampleDoc (bno ref : String) : Document :=
  { bill_no := bno
    invoice_date := "01-Jan-2026"
    is_non_gst := false
    client_name := "Acme"
    client_gstin := "06ABCDE1234F1Z5"
    particulars := ["Laptop"]
    qtys := [1]
    rates := [1180]
    taxrates := [18]
    hsns := ["8471"]
    amounts := [1000]
    sub_total := 1000
    igst := 0
    cgst := 90
    sgst := 90
    grand_total := 1180
    line_tax_amounts := [180]
    line_total_amounts := [1180]
    is_credit_note := false
    original_invoice_no := ref }

theorem C6_idempotent_witness :
    generate_credit_note "TE" "02-Jan-2026" "TE/2025-26/0001"
        ⟨[sampleDoc "TE-CN/2025-26/0001" "TE/2025-26/0001"], 1, 1⟩
      = (Except.ok (sampleDoc "TE-CN/2025-26/0001" "TE/2025-26/0001"),
          ⟨[sampleDoc "TE-CN/2025-26/0001" "TE/2025-26/0001"], 1, 1⟩) :=
  C6_idempotent "TE" "02-Jan-2026" "TE/2025-26/0001" _ _ rfl

/-- Python `str.strip()`: drop leading and trailing whitespace. -/
def stripChars (s : String) : String :=
  String.mk
    (((s.data.dropWhile Char.isWhitespace).reverse.dropWhile
      Char.isWhitespace).reverse)

/-- Outcome of the numbering step of `handle_invoice`. -/
inductive BillResult where
  | ok (bill_no : String)
  | duplicateError
deriving Repr, DecidableEq

/-- The numbering step of `handle_invoice` (app.py lines 635-647): the
auto branch formats a fresh number; the manual branch strips the
supplied number — defaulted to the empty string — and only rejects it
when it collides with an existing bill number.  There is no
missing-number check. -/
def assignBillNo (auto_generate : Bool) (manual_bill_no : String)
    (existing_bill_nos : List String) (pfx : String) (counter : ℕ) :
    BillResult :=
  if auto_generate then BillResult.ok (autoBillNo pfx counter)
  else
    let bill := stripChars manual_bill_no
    if existing_bill_nos.any (fun b => b == bill) then BillResult.duplicateError
    else BillResult.ok bill

/-- C7 fails as stated: with manual numbering selected and no bill
number supplied (and an empty directory), generation does not fail
with any missing-number error — it succeeds with the empty string as
the document id. -/
theorem C7_counterexample :
    assignBillNo false "" [] "TE" 1 = BillResult.ok "" := rfl

/-- C7 amended: the manual branch has no missing-number check — an
unsupplied number proceeds as the (stripped) empty-string id whenever
no existing document carries that id — while a manual number equal to
an existing document's id is rejected with the duplicate error. -/
theorem C7_manual_numbering (manual : String) (existing : List String)
    (pfx : String) (c : ℕ) :
    (existing.any (fun b => b == stripChars manual) = true →
      assignBillNo false manual existing pfx c = BillResult.duplicateError) ∧
    (existing.any (fun b => b == stripChars manual) = false →
      assignBillNo false manual existing pfx c
        = BillResult.ok (stripChars manual)) := by
  constructor <;> intro h <;> simp [assignBillNo, h]

theorem C7_manual_numbering_witness :
    assignBillNo false "INV-7" ["INV-7"] "TE" 3 = BillResult.duplicateError ∧
    assignBillNo false "" ["INV-7"] "TE" 3 = BillResult.ok "" :=
  ⟨(C7_manual_numbering "INV-7" ["INV-7"] "TE" 3).1 (by decide),
   (C7_manual_numbering "" ["INV-7"] "TE" 3).2 (by decide)⟩

/-! ### The number-to-words formatter (C8, C10) -/

/-- The `units` table of `convert_to_words` (app.py lines 232-233). -/
def unitsTable : List String :=
  ["", "One", "Two", "Three", "Four", "Five", "Six", "Seven", "Eight",
   "Nine", "Ten", "Eleven", "Twelve", "Thirteen", "Fourteen", "Fifteen",
   "Sixteen", "Seventeen", "Eighteen", "Nineteen"]

/-- The `tens` table of `convert_to_words` (app.py line 234). -/
def tensTable : List String :=
  ["", "", "Twenty", "Thirty", "Forty", "Fifty", "Sixty", "Seventy",
   "Eighty", "Ninety"]

/-- Source: `two_digit(n)` (app.py lines 235-236).  `none` models the
IndexError a Python table lookup raises when the index is out of
range. -/
def twoDigit? (n : ℕ) : Option String :=
  if n < 20 then unitsTable.get? n
  else
    (tensTable.get? (n / 10)).bind fun t =>
      if n % 10 ≠ 0 then
        (unitsTable.get? (n % 10)).map fun u => t ++ " " ++ u
      else some t

/-- Source: `three_digit(n)` (app.py lines 237-241). -/
def threeDigit? (n : ℕ) : Option String :=
  (if 100 ≤ n then
      (unitsTable.get? (n / 100)).map
        fun u => u ++ " Hundred" ++ (if n % 100 ≠ 0 then " " else "")
    else some "").bind fun s1 =>
  (if n % 100 ≠ 0 then twoDigit? (n % 100) else some "").map
    fun s2 => s1 ++ s2

/-- One group's contribution to `parts` (app.py lines 249-252): the
rendered three-digit value with its trailing label, or nothing when
the group is 0. -/
def groupPart? (m : ℕ) (label : String) : Option (List String) :=
  if m ≠ 0 then (threeDigit? m).map (fun s => [s ++ label]) else some []

/-- The body of `convert_to_words` after the rupee/paise split
(app.py lines 244-255): Indian grouping into crore/lakh/thousand/
hundreds, space-joined with group labels, "Zero" when no group is
present, the paise clause, and the trailing " Only". -/
def wordsOfParts? (n paise : ℕ) : Option String :=
  (groupPart? (n / 10000000) " Crore").bind fun p1 =>
  (groupPart? (n % 10000000 / 100000) " Lakh").bind fun p2 =>
  (groupPart? (n % 100000 / 1000) " Thousand").bind fun p3 =>
  (groupPart? (n % 1000) "").bind fun p4 =>
  (if paise ≠ 0 then
      (twoDigit? paise).map fun p =>
        (if (p1 ++ p2 ++ p3 ++ p4).isEmpty then "Zero"
          else String.intercalate " " (p1 ++ p2 ++ p3 ++ p4))
        ++ " and " ++ p ++ " Paise"
    else some (if (p1 ++ p2 ++ p3 ++ p4).isEmpty then "Zero"
      else String.intercalate " " (p1 ++ p2 ++ p3 ++ p4))).map
    fun w => w ++ " Only"

/-- Source: `n = int(abs(number))` (app.py line 242). -/
def rupeesOf (q : ℚ) : ℕ := ⌊|q|⌋.toNat

/-- Source: `paise = round((abs(number) - n) * 100)` (app.py line 243). -/
def paiseOf (q : ℚ) : ℕ := (round ((|q| - (rupeesOf q : ℚ)) * 100)).toNat

/-- Source: `convert_to_words` (app.py lines 231-255), with `none` modelling
an IndexError escaping from a table lookup. -/
def convert_to_words (q : ℚ) : Option String :=
  wordsOfParts? (rupeesOf q) (paiseOf q)

/-! Evaluating the rupee/paise split on the concrete inputs of the
claims (Mathlib's `round`/`⌊⌋` on `ℚ` are not kernel-reducible, so
these are proved by `norm_num` instead of `decide`). -/

lemma rupeesOf_zero : rupeesOf (0 : ℚ) = 0 := by
  unfold rupeesOf
  rw [abs_zero, Int.floor_zero]
  rfl

lemma paiseOf_zero : paiseOf (0 : ℚ) = 0 := by
  unfold paiseOf
  rw [rupeesOf_zero, abs_zero]
  norm_num

lemma rupeesOf_1000 : rupeesOf (1000 : ℚ) = 1000 := by
  unfold rupeesOf
  rw [abs_of_nonneg (by norm_num : (0 : ℚ) ≤ 1000),
    show ⌊(1000 : ℚ)⌋ = 1000 by norm_num]
  rfl

lemma paiseOf_1000 : paiseOf (1000 : ℚ) = 0 := by
  unfold paiseOf
  rw [rupeesOf_1000, abs_of_nonneg (by norm_num : (0 : ℚ) ≤ 1000)]
  norm_num

lemma rupeesOf_100000 : rupeesOf (100000 : ℚ) = 100000 := by
  unfold rupeesOf
  rw [abs_of_nonneg (by norm_num : (0 : ℚ) ≤ 100000),
    show ⌊(100000 : ℚ)⌋ = 100000 by norm_num]
  rfl

lemma paiseOf_100000 : paiseOf (100000 : ℚ) = 0 := by
  unfold paiseOf
  rw [rupeesOf_100000, abs_of_nonneg (by norm_num : (0 : ℚ) ≤ 100000)]
  norm_num

lemma rupeesOf_big : rupeesOf (1234567.89 : ℚ) = 1234567 := by
  unfold rupeesOf
  rw [abs_of_nonneg (by norm_num : (0 : ℚ) ≤ 1234567.89),
    show ⌊(1234567.89 : ℚ)⌋ = 1234567 by norm_num]
  rfl

lemma paiseOf_big : paiseOf (1234567.89 : ℚ) = 89 := by
  unfold paiseOf
  rw [rupeesOf_big,
    abs_of_nonneg (by norm_num : (0 : ℚ) ≤ 1234567.89)]
  rw [show ((1234567.89 : ℚ) - ((1234567 : ℕ) : ℚ)) * 100 = 89 by norm_num]
  rw [show round (89 : ℚ) = 89 by norm_num [round_eq]]
  rfl

/-- C8 fails as stated: `convert_to_words(1234567.89)` is not the
spec's "One Lakh Twenty-Three Thousand Four Hundred Sixty-Seven and
Eighty-Nine Paise Only" — 1234567 groups as 12,34,567 and the
renderer never hyphenates. -/
theorem C8_counterexample :
    convert_to_words (1234567.89 : ℚ)
      ≠ some ("One Lakh Twenty-Three Thousand Four Hundred Sixty-Seven"
          ++ " and Eighty-Nine Paise Only") := by
  unfold convert_to_words
  rw [rupeesOf_big, paiseOf_big]
  decide

/-- C8 amended: the first three enumerated cases hold as stated, and
`convert_to_words(1234567.89)` equals "Twelve Lakh Thirty Four
Thousand Five Hundred Sixty Seven and Eighty Nine Paise Only". -/
theorem C8_words_cases :
    convert_to_words (0 : ℚ) = some "Zero Only" ∧
    convert_to_words (100000 : ℚ) = some "One Lakh Only" ∧
    convert_to_words (1000 : ℚ) = some "One Thousand Only" ∧
    convert_to_words (1234567.89 : ℚ)
      = some ("Twelve Lakh Thirty Four Thousand Five Hundred Sixty Seven"
          ++ " and Eighty Nine Paise Only") := by
  refine ⟨?_, ?_, ?_, ?_⟩
  · unfold convert_to_words
    rw [rupeesOf_zero, paiseOf_zero]
    decide
  · unfold convert_to_words
    rw [rupeesOf_100000, paiseOf_100000]
    decide
  · unfold convert_to_words
    rw [rupeesOf_1000, paiseOf_1000]
    decide
  · unfold convert_to_words
    rw [rupeesOf_big, paiseOf_big]
    decide

/-! ### Totality of the formatter (C10) -/

lemma twoDigit?_isSome : ∀ n : ℕ, n ≤ 99 → (twoDigit? n).isSome = true := by
  decide

lemma threeDigit?_isSome {m : ℕ} (h : m ≤ 1999) :
    (threeDigit? m).isSome = true := by
  have hs2 : ∃ s, (if m % 100 ≠ 0 then twoDigit? (m % 100) else some "")
      = some s := by
    by_cases hm : m % 100 ≠ 0
    · rw [if_pos hm]
      exact Option.isSome_iff_exists.mp (twoDigit?_isSome (m % 100) (by omega))
    · rw [if_neg hm]; exact ⟨"", rfl⟩
  have hs1 : ∃ s, (if 100 ≤ m then
      (unitsTable.get? (m / 100)).map
        (fun u => u ++ " Hundred" ++ (if m % 100 ≠ 0 then " " else ""))
    else some "") = some s := by
    by_cases hm : 100 ≤ m
    · rw [if_pos hm]
      have hlen : unitsTable.length = 20 := rfl
      have hlt : m / 100 < unitsTable.length := by omega
      rw [List.get?_eq_get hlt]
      exact ⟨_, rfl⟩
    · rw [if_neg hm]; exact ⟨"", rfl⟩
  obtain ⟨s1, h1⟩ := hs1
  obtain ⟨s2, h2⟩ := hs2
  unfold threeDigit?
  rw [h1, h2]
  rfl

lemma groupPart?_some (label : String) {m : ℕ} (h : m ≤ 1999) :
    ∃ p, groupPart? m label = some p := by
  unfold groupPart?
  by_cases hm : m ≠ 0
  · rw [if_pos hm]
    obtain ⟨s, hs⟩ := Option.isSome_iff_exists.mp (threeDigit?_isSome h)
    exact ⟨[s ++ label], by rw [hs]; rfl⟩
  · rw [if_neg hm]; exact ⟨[], rfl⟩

lemma wordsOfParts?_isSome {n paise : ℕ} (hn : n ≤ 19999999999)
    (hp : paise ≤ 99) : (wordsOfParts? n paise).isSome = true := by
  obtain ⟨p1, h1⟩ := groupPart?_some " Crore"
    (show n / 10000000 ≤ 1999 by omega)
  obtain ⟨p2, h2⟩ := groupPart?_some " Lakh"
    (show n % 10000000 / 100000 ≤ 1999 by omega)
  obtain ⟨p3, h3⟩ := groupPart?_some " Thousand"
    (show n % 100000 / 1000 ≤ 1999 by omega)
  obtain ⟨p4, h4⟩ := groupPart?_some ""
    (show n % 1000 ≤ 1999 by omega)
  unfold wordsOfParts?
  rw [h1, h2, h3, h4]
  simp only [Option.some_bind]
  by_cases hpz : paise ≠ 0
  · rw [if_pos hpz]
    obtain ⟨p, hps⟩ :=
      Option.isSome_iff_exists.mp (twoDigit?_isSome paise hp)
    rw [hps]
    rfl
  · rw [if_neg hpz]
    rfl

lemma rupeesOf_huge : rupeesOf (20000000000 : ℚ) = 20000000000 := by
  unfold rupeesOf
  rw [abs_of_nonneg (by norm_num : (0 : ℚ) ≤ 20000000000),
    show ⌊(20000000000 : ℚ)⌋ = 20000000000 by norm_num]
  rfl

lemma paiseOf_huge : paiseOf (20000000000 : ℚ) = 0 := by
  unfold paiseOf
  rw [rupeesOf_huge,
    abs_of_nonneg (by norm_num : (0 : ℚ) ≤ 20000000000)]
  norm_num

lemma rupeesOf_nearOne : rupeesOf (999 / 1000 : ℚ) = 0 := by
  unfold rupeesOf
  rw [abs_of_nonneg (by norm_num : (0 : ℚ) ≤ 999 / 1000),
    show ⌊(999 / 1000 : ℚ)⌋ = 0 by norm_num]
  rfl

lemma paiseOf_nearOne : paiseOf (999 / 1000 : ℚ) = 100 := by
  unfold paiseOf
  rw [rupeesOf_nearOne,
    abs_of_nonneg (by norm_num : (0 : ℚ) ≤ 999 / 1000)]
  rw [show ((999 / 1000 : ℚ) - ((0 : ℕ) : ℚ)) * 100 = 999 / 10 by norm_num]
  rw [show round (999 / 10 : ℚ) = 100 by norm_num [round_eq]]
  rfl

/-- C10 fails as stated: the amount 20,000,000,000 has paise remainder
0 ≤ 99, yet the formatter is not total on it — its crore group is
2000 and `units[2000 // 100]` is out of range. -/
theorem C10_counterexample :
    paiseOf (20000000000 : ℚ) ≤ 99 ∧
    convert_to_words (20000000000 : ℚ) = none := by
  constructor
  · rw [paiseOf_huge]; decide
  · unfold convert_to_words
    rw [rupeesOf_huge, paiseOf_huge]
    decide

/-- C10 amended: the formatter is total on every amount whose paise
remainder is at most 99 and whose integer rupee part is at most
19,999,999,999 (so the crore group stays within the units table); the
paise precondition is necessary — 0.999 rounds to 100 paise and
drives the two-digit renderer's lookup out of range. -/
theorem C10_words_total :
    (∀ q : ℚ, paiseOf q ≤ 99 → rupeesOf q ≤ 19999999999 →
      (convert_to_words q).isSome = true) ∧
    convert_to_words (999 / 1000 : ℚ) = none := by
  constructor
  · intro q hp hn
    exact wordsOfParts?_isSome hn hp
  · unfold convert_to_words
    rw [rupeesOf_nearOne, paiseOf_nearOne]
    decide

theorem C10_words_total_witness :
    (convert_to_words (1234567.89 : ℚ)).isSome = true :=
  C10_words_total.1 (1234567.89 : ℚ)
    (by rw [paiseOf_big]; decide)
    (by rw [rupeesOf_big]; decide)

end Invoice
